import Mathlib

/-!
Verification of the order service in `order_handler.py`.

The service is one HTTP endpoint `POST /order/{customer_id}`: the body is
validated into an `Order` (a list of `Product`s plus an optional email),
two derived totals are computed, a serialized snapshot of the order is
appended to the process-wide list `fake_orders_db`, and a summary object
is returned.

Modelling decisions:
- Python floats are modelled as `ℚ`, Python ints as `ℤ`.
- The mutable global `fake_orders_db` is modelled by explicit state
  passing: the handler takes the current store and returns the new one.
- The validation layer (path-parameter coercion and the pydantic schema
  check) lives in the external framework, so it is modelled from the
  spec over a small JSON value type; the handler body itself is
  translated from the source.
-/

/-- A product in an order (`Product` in the source): a name, a unit
price and a unit count. -/
structure Product where
  product_name : String
  price : ℚ
  quantity : ℤ
deriving DecidableEq, Repr

/-- A customer order (`Order` in the source): an optional email and a
list of products.  The email field defaults to `none` when absent. -/
structure Order where
  email : Option String := none
  products : List Product
deriving DecidableEq, Repr

/-- The `total_price` loop of the source, as a function of the product
list: starting from `0`, add `price * quantity` for each product in
list order. -/
def totalPriceOf (ps : List Product) : ℚ :=
  ps.foldl (fun acc p => acc + p.price * (p.quantity : ℚ)) 0

/-- Computed field `Order.total_price`: the `totalPriceOf` loop run on
the order's own product list. -/
def Order.total_price (o : Order) : ℚ :=
  totalPriceOf o.products

/-- The `total_quantity` loop of the source, as a function of the
product list: starting from `0`, add `quantity` for each product in
list order. -/
def totalQuantityOf (ps : List Product) : ℤ :=
  ps.foldl (fun acc p => acc + p.quantity) 0

/-- Computed field `Order.total_quantity`: the `totalQuantityOf` loop
run on the order's own product list. -/
def Order.total_quantity (o : Order) : ℤ :=
  totalQuantityOf o.products

/-- The serialized snapshot of an order produced by `model_dump`: the
declared fields together with the two computed fields. -/
structure OrderDump where
  email : Option String
  products : List Product
  total_price : ℚ
  total_quantity : ℤ
deriving DecidableEq, Repr

/-- `Order.model_dump`: serialize the order, evaluating the two
computed fields at serialization time. -/
def Order.model_dump (o : Order) : OrderDump :=
  { email := o.email
    products := o.products
    total_price := o.total_price
    total_quantity := o.total_quantity }

/-- The summary object returned by the handler:
`{ id, quantity, total_price }`. -/
structure Summary where
  id : ℤ
  quantity : ℤ
  total_price : ℚ
deriving DecidableEq, Repr

/-- The handler `process_order` from the source, with the global store
`fake_orders_db` passed explicitly: append the order's `model_dump` to
the store and return the summary built from the path's customer id and
the order's computed totals. -/
def process_order (fake_orders_db : List OrderDump) (customer_id : ℤ)
    (order : Order) : List OrderDump × Summary :=
  (fake_orders_db ++ [order.model_dump],
   { id := customer_id
     quantity := order.total_quantity
     total_price := order.total_price })

/-- Run a sequence of successful submissions against the store, each one
through `process_order`, threading the store. -/
def runSubmissions (fake_orders_db : List OrderDump)
    (subs : List (ℤ × Order)) : List OrderDump :=
  subs.foldl (fun db s => (process_order db s.1 s.2).1) fake_orders_db

/-- A JSON value, the raw material of a request body. -/
inductive Json where
  | null : Json
  | str : String → Json
  | int : ℤ → Json
  | num : ℚ → Json
  | arr : List Json → Json
  | obj : List (String × Json) → Json

/-- Modelled from the spec: the email-syntax constraint enforced by the
external validation layer for the `email` field ("if an email is
present it must match email-address syntax"): exactly one `@` sign,
a nonempty local part, and a nonempty domain containing a dot. -/
def isValidEmail (s : String) : Bool :=
  let lp := s.data.takeWhile (fun c => c ≠ '@')
  match s.data.dropWhile (fun c => c ≠ '@') with
  | [] => false
  | _ :: dp => !lp.isEmpty && !dp.isEmpty && !dp.contains '@' && dp.contains '.'

/-- Modelled from the spec: the external validation layer's parse of one
product from the request body ("each product must supply a name (text),
a price (number), and a quantity (integer)"). -/
def parseProduct (j : Json) : Option Product :=
  match j with
  | Json.obj kvs => do
      let n ← match kvs.lookup "product_name" with
        | some (Json.str s) => some s
        | _ => none
      let pr ← match kvs.lookup "price" with
        | some (Json.num q) => some q
        | some (Json.int z) => some (z : ℚ)
        | _ => none
      let q ← match kvs.lookup "quantity" with
        | some (Json.int z) => some z
        | _ => none
      pure { product_name := n, price := pr, quantity := q }
  | _ => none

/-- Modelled from the spec: the external validation layer's parse of the
request body into an `Order` ("the body must parse as valid structured
data matching the Order shape"; `email` optional with default `none`,
`products` required, possibly empty). -/
def parseOrder (j : Json) : Option Order :=
  match j with
  | Json.obj kvs => do
      let e ← match kvs.lookup "email" with
        | none => some none
        | some Json.null => some none
        | some (Json.str s) => if isValidEmail s then some (some s) else none
        | some _ => none
      let pjs ← match kvs.lookup "products" with
        | some (Json.arr xs) => some xs
        | _ => none
      let ps ← pjs.mapM parseProduct
      pure { email := e, products := ps }
  | _ => none

/-- Read a list of decimal digits as a natural number. -/
def digitsToNat (ds : List Char) : ℕ :=
  ds.foldl (fun a c => 10 * a + (c.toNat - 48)) 0

/-- Modelled from the spec: the framework's coercion of the path
parameter `customer_id` ("the customer identifier must parse as an
integer"): an optional sign followed by at least one decimal digit. -/
def parseCustomerId (s : String) : Option ℤ :=
  match s.data with
  | [] => none
  | '-' :: ds =>
      if ds ≠ [] && ds.all Char.isDigit then some (-(digitsToNat ds : ℤ)) else none
  | ds =>
      if ds.all Char.isDigit then some (digitsToNat ds : ℤ) else none

/-- The full request/response round trip: coerce the path parameter,
validate the body, and on success run `process_order`; on any
validation failure the request is rejected with the store unchanged and
no summary produced. -/
def handle_request (fake_orders_db : List OrderDump) (customer_id : String)
    (body : Json) : List OrderDump × Option Summary :=
  match parseCustomerId customer_id, parseOrder body with
  | some cid, some o =>
      let r := process_order fake_orders_db cid o
      (r.1, some r.2)
  | _, _ => (fake_orders_db, none)

/-- Request body of end-to-end scenario A:
`{"products":[{"product_name":"Pen","price":1.5,"quantity":4}]}`. -/
def bodyA : Json :=
  Json.obj [("products", Json.arr [Json.obj
    [("product_name", Json.str "Pen"), ("price", Json.num 1.5),
     ("quantity", Json.int 4)]])]

/-- The order scenario A's body parses to. -/
def orderA : Order :=
  { email := none, products := [{ product_name := "Pen", price := 1.5, quantity := 4 }] }

/-- Request body of end-to-end scenario C: `{"products":[]}`. -/
def bodyC : Json :=
  Json.obj [("products", Json.arr [])]

/-- Request body of end-to-end scenario D:
`{"email":"not-an-email","products":[]}`. -/
def bodyD : Json :=
  Json.obj [("email", Json.str "not-an-email"), ("products", Json.arr [])]

lemma totalQuantityOf_aux (ps : List Product) :
    ∀ a : ℤ, ps.foldl (fun acc p => acc + p.quantity) a
      = a + (ps.map Product.quantity).sum := by
  induction ps with
  | nil => intro a; simp
  | cons p t ih => intro a; simp [List.foldl_cons, ih, add_assoc]

lemma totalQuantityOf_eq_sum (ps : List Product) :
    totalQuantityOf ps = (ps.map Product.quantity).sum := by
  simpa [totalQuantityOf] using totalQuantityOf_aux ps 0

lemma totalPriceOf_aux (ps : List Product) :
    ∀ a : ℚ, ps.foldl (fun acc p => acc + p.price * (p.quantity : ℚ)) a
      = a + (ps.map (fun p => p.price * (p.quantity : ℚ))).sum := by
  induction ps with
  | nil => intro a; simp
  | cons p t ih => intro a; simp [List.foldl_cons, ih, add_assoc]

lemma totalPriceOf_eq_sum (ps : List Product) :
    totalPriceOf ps = (ps.map (fun p => p.price * (p.quantity : ℚ))).sum := by
  simpa [totalPriceOf] using totalPriceOf_aux ps 0

/-- C1: for every order, the computed field `total_quantity` equals the
sum of `quantity` over the order's products, in list order. -/
theorem total_quantity_is_sum (o : Order) :
    o.total_quantity = (o.products.map Product.quantity).sum := by
  simpa [Order.total_quantity] using totalQuantityOf_eq_sum o.products

/-- C2: for every order, the computed field `total_price` equals the sum
of `price * quantity` over the order's products, in list order. -/
theorem total_price_is_sum (o : Order) :
    o.total_price = (o.products.map (fun p => p.price * (p.quantity : ℚ))).sum := by
  simpa [Order.total_price] using totalPriceOf_eq_sum o.products

/-- C3: whenever the path parameter coerces to an integer `cid` and the
body validates as an order `o`, the handler's response is exactly the
summary `{ id := cid, quantity := o.total_quantity,
total_price := o.total_price }`, the id being the path's customer
identifier. -/
theorem handler_response_is_summary (db : List OrderDump) (s : String) (b : Json)
    (cid : ℤ) (o : Order)
    (h1 : parseCustomerId s = some cid) (h2 : parseOrder b = some o) :
    (handle_request db s b).2 =
      some { id := cid, quantity := o.total_quantity, total_price := o.total_price } := by
  simp [handle_request, h1, h2, process_order]

/-- Witness for C3, end-to-end scenario A: `POST /order/42` with body
`{"products":[{"product_name":"Pen","price":1.5,"quantity":4}]}`
yields the response `{"id":42,"quantity":4,"total_price":6.0}`. -/
theorem handler_response_is_summary_witness :
    parseCustomerId "42" = some 42 ∧ parseOrder bodyA = some orderA ∧
    (handle_request [] "42" bodyA).2 =
      some { id := 42, quantity := 4, total_price := 6 } := by
  refine ⟨by decide, rfl, ?_⟩
  have h := handler_response_is_summary [] "42" bodyA 42 orderA (by decide) rfl
  rw [h]
  norm_num [Order.total_price, Order.total_quantity, totalPriceOf, totalQuantityOf, orderA]

/-- C4: when validation fails (the path parameter does not coerce to an
integer, or the body does not validate as an order), the request is
rejected: no summary is produced and the store is unchanged. -/
theorem validation_failure_rejects (db : List OrderDump) (s : String) (b : Json)
    (h : parseCustomerId s = none ∨ parseOrder b = none) :
    handle_request db s b = (db, none) := by
  rcases h with h1 | h2
  · cases hb : parseOrder b <;> simp [handle_request, h1, hb]
  · cases hs : parseCustomerId s <;> simp [handle_request, hs, h2]

/-- Witness for C4, end-to-end scenario D: `POST /order/1` with body
`{"email":"not-an-email","products":[]}` is rejected and the
(nonempty) store is left unchanged. -/
theorem validation_failure_rejects_witness :
    parseOrder bodyD = none ∧
    handle_request [Order.model_dump orderA] "1" bodyD =
      ([Order.model_dump orderA], none) :=
  ⟨by decide, validation_failure_rejects [Order.model_dump orderA] "1" bodyD
    (Or.inr (by decide))⟩

/-- C5: each successful submission appends exactly one entry at the end
of the store and leaves every existing entry in place, so a sequence of
`n` successful submissions grows the store by exactly `n` entries
(submitting the same order twice yields two entries). -/
theorem store_grows_by_one_per_submission :
    (∀ (db : List OrderDump) (cid : ℤ) (o : Order),
      (process_order db cid o).1.take db.length = db ∧
      (process_order db cid o).1.length = db.length + 1 ∧
      (process_order db cid o).1.getLast? = some o.model_dump) ∧
    (∀ (db : List OrderDump) (subs : List (ℤ × Order)),
      (runSubmissions db subs).length = db.length + subs.length) := by
  constructor
  · intro db cid o
    refine ⟨?_, ?_, ?_⟩
    · simp [process_order, List.take_left]
    · simp [process_order]
    · simp [process_order]
  · intro db subs
    induction subs generalizing db with
    | nil => simp [runSubmissions]
    | cons s t ih =>
        have h := ih (process_order db s.1 s.2).1
        simp only [runSubmissions, List.foldl_cons] at h ⊢
        rw [h]
        simp [process_order]
        omega

/-- C6: the record appended by a successful submission is the serialized
snapshot of the parsed order with the two computed fields evaluated at
storage time, and it is independent of the path's customer identifier
(the id is not stored). -/
theorem stored_record_is_snapshot_without_id :
    ∀ (db : List OrderDump) (cid cid' : ℤ) (o : Order),
      (process_order db cid o).1.getLast? =
        some { email := o.email, products := o.products,
               total_price := o.total_price, total_quantity := o.total_quantity } ∧
      (process_order db cid o).1 = (process_order db cid' o).1 := by
  intro db cid cid' o
  constructor
  · simp [process_order, Order.model_dump]
  · simp [process_order]

/-- C7: an order with an empty product list is valid and has zero
totals; end-to-end scenario C: `POST /order/1` with body
`{"products":[]}` stores one zero-total snapshot and returns
`{"id":1,"quantity":0,"total_price":0.0}`. -/
theorem empty_product_list_zero_totals :
    (∀ e : Option String,
      (Order.mk e []).total_quantity = 0 ∧ (Order.mk e []).total_price = 0) ∧
    handle_request [] "1" bodyC =
      ([{ email := none, products := [], total_price := 0, total_quantity := 0 }],
       some { id := 1, quantity := 0, total_price := 0 }) := by
  constructor
  · intro e
    exact ⟨rfl, rfl⟩
  · rfl

/-- C8: the handler's response depends only on the path parameter and
the body, never on the current contents of the store. -/
theorem response_independent_of_store :
    ∀ (db1 db2 : List OrderDump) (s : String) (b : Json),
      (handle_request db1 s b).2 = (handle_request db2 s b).2 := by
  intro db1 db2 s b
  cases hs : parseCustomerId s <;> cases hb : parseOrder b <;>
    simp [handle_request, hs, hb, process_order]

/-- C9: the total computations are additive over concatenation of
product lists. -/
theorem totals_additive_over_append :
    ∀ p1 p2 : List Product,
      totalQuantityOf (p1 ++ p2) = totalQuantityOf p1 + totalQuantityOf p2 ∧
      totalPriceOf (p1 ++ p2) = totalPriceOf p1 + totalPriceOf p2 := by
  intro p1 p2
  constructor
  · simp [totalQuantityOf_eq_sum]
  · simp [totalPriceOf_eq_sum]

/-- C10: the email field defaults to `none` when the body has no email
key, and every stored snapshot carries an email entry equal to the
order's email (the supplied address, or `none` when omitted). -/
theorem email_defaults_to_none_and_is_stored :
    (∀ (kvs : List (String × Json)) (o : Order),
      List.lookup "email" kvs = none → parseOrder (Json.obj kvs) = some o →
      o.email = none) ∧
    (∀ (db : List OrderDump) (cid : ℤ) (o : Order),
      ((process_order db cid o).1.getLast?).map OrderDump.email = some o.email) := by
  constructor
  · intro kvs o h hp
    simp only [parseOrder, h, Option.bind_eq_bind, Option.some_bind] at hp
    rcases hpr : List.lookup "products" kvs with _ | pj <;> rw [hpr] at hp
    · simp at hp
    · cases pj <;> simp [Option.bind_eq_some] at hp
      rcases hp with ⟨ps, hps, rfl⟩
      rfl
  · intro db cid o
    simp [process_order, Order.model_dump]

/-- Witness for C10: a body with a `products` key and no `email` key
parses to an order whose email is `none`. -/
theorem email_defaults_to_none_witness :
    List.lookup "email" [("products", Json.arr [])] = none ∧
    parseOrder (Json.obj [("products", Json.arr [])]) =
      some { email := none, products := [] } ∧
    (Order.mk none []).email = none :=
  ⟨rfl, rfl, email_defaults_to_none_and_is_stored.1 [("products", Json.arr [])]
    (Order.mk none []) rfl rfl⟩
